import Mathlib

/-!
Verification of the airplane-trajectories pipeline
(`Airplanes_ingest_flight_snapshots.py` and
`Airplanes_compute_flight_snapshots.py`) against its specification.

The ingestion side (`llenar_tabla_en_sqlite`, `crear_tabla_principal`,
`main`) is embedded as pure state-passing over an explicit database value;
the compute side (`calcular_distancias_trayectorias`) as a real-valued
computation over the `Trayectorias_validas` table.  SQLite numeric columns
are idealised as rationals; the trigonometric distance is carried out over
the reals.
-/

namespace Airplanes

/-- One element of the `"states"` list returned by the OpenSky endpoint.
Only positions 0,1,2,3,5,6,7 are consumed by the ingestion loop
(`avion[0]` … `avion[7]`); longitude, latitude, altitude and the
time-position marker may be null upstream. -/
structure StateRecord where
  icao : String
  call_sign : String
  pais_origen : String
  posicion_temporal : Option Int
  longitud : Option ℚ
  latitud : Option ℚ
  altitud : Option ℚ
deriving DecidableEq

/-- A row of the `Avion_fisico` table:
`id INTEGER PRIMARY KEY AUTOINCREMENT`, `icao TEXT UNIQUE`,
`call_sign TEXT`, `pais_origen TEXT`. -/
structure AvionFisicoRow where
  id : Nat
  icao : String
  call_sign : String
  pais_origen : String
deriving DecidableEq

/-- A row of the `Snapshots` table. -/
structure SnapshotRow where
  id : Nat
  avion_fisico_id : Nat
  posicion_temporal : Option Int
  tiempo_de_captura : Int
  longitud : Option ℚ
  latitud : Option ℚ
  altitud : Option ℚ
deriving DecidableEq

/-- The SQLite database state touched by the ingestion job: the two tables
plus the AUTOINCREMENT counters for their surrogate keys. -/
structure DB where
  avion_fisico : List AvionFisicoRow
  snapshots : List SnapshotRow
  next_avion_id : Nat
  next_snapshot_id : Nat
deriving DecidableEq

/-- The nationality filter of the ingestion loop:
`if avion[2] != "Mexico": continue`, i.e. a record is retained
exactly when its country field equals `"Mexico"`. -/
def esMexicano (r : StateRecord) : Bool :=
  r.pais_origen == "Mexico"

/-- `INSERT OR IGNORE INTO Avion_fisico (icao, call_sign, pais_origen)`:
because `icao` is `UNIQUE`, the insert is ignored when a row with the
same `icao` exists; otherwise a fresh AUTOINCREMENT id is assigned and
the row is appended. -/
def insertOrIgnoreAvion (db : DB) (r : StateRecord) : DB :=
  if db.avion_fisico.any (fun row => row.icao == r.icao) then db
  else
    { db with
      avion_fisico :=
        db.avion_fisico ++ [⟨db.next_avion_id, r.icao, r.call_sign, r.pais_origen⟩],
      next_avion_id := db.next_avion_id + 1 }

/-- `SELECT id FROM Avion_fisico WHERE icao = ?` followed by `fetchone()`. -/
def lookupAvionId (db : DB) (i : String) : Option Nat :=
  (db.avion_fisico.find? (fun row => row.icao == i)).map (fun row => row.id)

/-- One iteration of the `for avion in diccionario["states"]` loop:
skip non-Mexican records, upsert the identity row, resolve its id and
append one snapshot.  The `none` branch of the lookup is unreachable
(the upsert guarantees a row with that `icao`, see
`lookupAvionId_insertOrIgnoreAvion`). -/
def procesarAvion (t : Int) (db : DB) (r : StateRecord) : DB :=
  if esMexicano r then
    match lookupAvionId (insertOrIgnoreAvion db r) r.icao with
    | some aid =>
        { insertOrIgnoreAvion db r with
          snapshots :=
            (insertOrIgnoreAvion db r).snapshots ++
              [⟨(insertOrIgnoreAvion db r).next_snapshot_id, aid, r.posicion_temporal, t,
                r.longitud, r.latitud, r.altitud⟩],
          next_snapshot_id := (insertOrIgnoreAvion db r).next_snapshot_id + 1 }
    | none => insertOrIgnoreAvion db r
  else db

/-- Message printed when `diccionario["states"]` is falsy. -/
def msgFormatoJSON : String :=
  "Hay un error con el formato del archivo JSON que ha provocado que no podamos llenar la tabla."

/-- Message printed after the loop commits. -/
def msgExito : String :=
  "Las tablas ha sido llenada con éxito"

/-- `llenar_tabla_en_sqlite`: early return with a format-error message when
the `"states"` list is empty, otherwise process every record in order and
report success.  The returned pair is (database after commit, printed
message). -/
def llenar_tabla_en_sqlite (states : List StateRecord) (t : Int) (db : DB) :
    DB × String :=
  if states.isEmpty then (db, msgFormatoJSON)
  else (states.foldl (procesarAvion t) db, msgExito)

/-- `crear_tabla_principal` on a fresh database: both tables exist and are
empty, AUTOINCREMENT counters start at 1. -/
def crear_tabla_principal : DB :=
  ⟨[], [], 1, 1⟩

/-- A whole ingestion run is `llenar_tabla_en_sqlite` applied to that run's
retained `"states"` list with that run's capture timestamp; a sequence of
runs folds this over the shared database. -/
def ingestRuns (db : DB) (runs : List (List StateRecord × Int)) : DB :=
  runs.foldl (fun d run => (llenar_tabla_en_sqlite run.1 run.2 d).1) db

/-- Number of `Avion_fisico` rows carrying a given `icao`. -/
def cuentaLista (l : List AvionFisicoRow) (i : String) : Nat :=
  (l.filter (fun row => row.icao == i)).length

/-- Number of identity rows of the database carrying a given `icao`. -/
def cuentaIcao (db : DB) (i : String) : Nat :=
  cuentaLista db.avion_fisico i

/-- The data columns of a snapshot row (everything except the surrogate
key and the resolved aircraft id). -/
def snapDatos (s : SnapshotRow) :
    Option Int × Int × Option ℚ × Option ℚ × Option ℚ :=
  (s.posicion_temporal, s.tiempo_de_captura, s.longitud, s.latitud, s.altitud)

/-! ### Basic lemmas about the upsert -/

theorem lookupAvionId_insertOrIgnoreAvion (db : DB) (r : StateRecord) :
    ∃ a, lookupAvionId (insertOrIgnoreAvion db r) r.icao = some a := by
  unfold insertOrIgnoreAvion lookupAvionId
  by_cases h : db.avion_fisico.any (fun row => row.icao == r.icao)
  · rw [if_pos h]
    rcases List.any_eq_true.mp h with ⟨row, hmem, hicao⟩
    have h2 : (db.avion_fisico.find? (fun row => row.icao == r.icao)).isSome :=
      List.find?_isSome.mpr ⟨row, hmem, hicao⟩
    rcases Option.isSome_iff_exists.mp h2 with ⟨row2, hrow2⟩
    exact ⟨row2.id, by rw [hrow2]; rfl⟩
  · rw [if_neg h]
    have hnone : db.avion_fisico.find? (fun row => row.icao == r.icao) = none := by
      rw [List.find?_eq_none]
      intro x hx hb
      exact h (List.any_eq_true.mpr ⟨x, hx, hb⟩)
    refine ⟨db.next_avion_id, ?_⟩
    show (List.find? (fun row => row.icao == r.icao)
        (db.avion_fisico ++ [⟨db.next_avion_id, r.icao, r.call_sign, r.pais_origen⟩])).map
        (fun row => row.id) = some db.next_avion_id
    rw [List.find?_append, hnone]
    simp

theorem insertOrIgnoreAvion_avion_append (db : DB) (r : StateRecord) :
    ∃ s, (insertOrIgnoreAvion db r).avion_fisico = db.avion_fisico ++ s := by
  unfold insertOrIgnoreAvion
  by_cases h : db.avion_fisico.any (fun row => row.icao == r.icao)
  · rw [if_pos h]
    exact ⟨[], by simp⟩
  · rw [if_neg h]
    exact ⟨[⟨db.next_avion_id, r.icao, r.call_sign, r.pais_origen⟩], rfl⟩

theorem insertOrIgnoreAvion_snapshots (db : DB) (r : StateRecord) :
    (insertOrIgnoreAvion db r).snapshots = db.snapshots := by
  unfold insertOrIgnoreAvion
  by_cases h : db.avion_fisico.any (fun row => row.icao == r.icao)
  · rw [if_pos h]
  · rw [if_neg h]

theorem procesarAvion_avion_append (t : Int) (db : DB) (r : StateRecord) :
    ∃ s, (procesarAvion t db r).avion_fisico = db.avion_fisico ++ s := by
  unfold procesarAvion
  by_cases hm : esMexicano r
  · rw [if_pos hm]
    rcases lookupAvionId_insertOrIgnoreAvion db r with ⟨a, ha⟩
    rw [ha]
    exact insertOrIgnoreAvion_avion_append db r
  · rw [if_neg hm]
    exact ⟨[], by simp⟩

theorem procesarAvion_snapshots_append (t : Int) (db : DB) (r : StateRecord) :
    ∃ s, (procesarAvion t db r).snapshots = db.snapshots ++ s := by
  unfold procesarAvion
  by_cases hm : esMexicano r
  · rw [if_pos hm]
    rcases lookupAvionId_insertOrIgnoreAvion db r with ⟨a, ha⟩
    rw [ha]
    refine ⟨[⟨(insertOrIgnoreAvion db r).next_snapshot_id, a, r.posicion_temporal, t,
      r.longitud, r.latitud, r.altitud⟩], ?_⟩
    show (insertOrIgnoreAvion db r).snapshots ++ _ = _
    rw [insertOrIgnoreAvion_snapshots]
  · rw [if_neg hm]
    exact ⟨[], by simp⟩

theorem insertOrIgnoreAvion_avion_eq (db : DB) (r : StateRecord) :
    (insertOrIgnoreAvion db r).avion_fisico =
      if db.avion_fisico.any (fun row => row.icao == r.icao) then db.avion_fisico
      else db.avion_fisico ++ [⟨db.next_avion_id, r.icao, r.call_sign, r.pais_origen⟩] := by
  unfold insertOrIgnoreAvion
  by_cases h : db.avion_fisico.any (fun row => row.icao == r.icao)
  · rw [if_pos h, if_pos h]
  · rw [if_neg h, if_neg h]

theorem procesarAvion_avion_eq (t : Int) (db : DB) (r : StateRecord) :
    (procesarAvion t db r).avion_fisico =
      if esMexicano r then (insertOrIgnoreAvion db r).avion_fisico
      else db.avion_fisico := by
  unfold procesarAvion
  by_cases hm : esMexicano r
  · rw [if_pos hm, if_pos hm]
    rcases lookupAvionId_insertOrIgnoreAvion db r with ⟨a, ha⟩
    rw [ha]
  · rw [if_neg hm, if_neg hm]

theorem procesarAvion_snapshots_map (t : Int) (db : DB) (r : StateRecord) :
    (procesarAvion t db r).snapshots.map snapDatos =
      db.snapshots.map snapDatos ++
        (if esMexicano r then
          [(r.posicion_temporal, t, r.longitud, r.latitud, r.altitud)] else []) := by
  unfold procesarAvion
  by_cases hm : esMexicano r
  · rw [if_pos hm, if_pos hm]
    rcases lookupAvionId_insertOrIgnoreAvion db r with ⟨a, ha⟩
    rw [ha]
    show ((insertOrIgnoreAvion db r).snapshots ++ _).map snapDatos = _
    rw [insertOrIgnoreAvion_snapshots, List.map_append]
    rfl
  · rw [if_neg hm, if_neg hm]
    simp

/-! ### Fold-level lemmas about one ingestion run -/

theorem foldl_procesar_snapshots_map (t : Int) :
    ∀ (states : List StateRecord) (db : DB),
      ((states.foldl (procesarAvion t) db).snapshots).map snapDatos =
        db.snapshots.map snapDatos ++
          (states.filter esMexicano).map
            (fun r => (r.posicion_temporal, t, r.longitud, r.latitud, r.altitud)) := by
  intro states
  induction states with
  | nil => intro db; simp
  | cons r rest ih =>
    intro db
    rw [List.foldl_cons, ih, procesarAvion_snapshots_map, List.filter_cons]
    by_cases hm : esMexicano r
    · rw [if_pos hm, if_pos hm, List.map_cons, List.append_assoc]
      rfl
    · rw [if_neg hm, if_neg hm]
      simp

theorem foldl_procesar_avion_append (t : Int) :
    ∀ (states : List StateRecord) (db : DB),
      ∃ s, (states.foldl (procesarAvion t) db).avion_fisico = db.avion_fisico ++ s := by
  intro states
  induction states with
  | nil => intro db; exact ⟨[], by simp⟩
  | cons r rest ih =>
    intro db
    rcases procesarAvion_avion_append t db r with ⟨s1, hs1⟩
    rcases ih (procesarAvion t db r) with ⟨s2, hs2⟩
    exact ⟨s1 ++ s2, by rw [List.foldl_cons, hs2, hs1, List.append_assoc]⟩

theorem foldl_procesar_snapshots_append (t : Int) :
    ∀ (states : List StateRecord) (db : DB),
      ∃ s, (states.foldl (procesarAvion t) db).snapshots = db.snapshots ++ s := by
  intro states
  induction states with
  | nil => intro db; exact ⟨[], by simp⟩
  | cons r rest ih =>
    intro db
    rcases procesarAvion_snapshots_append t db r with ⟨s1, hs1⟩
    rcases ih (procesarAvion t db r) with ⟨s2, hs2⟩
    exact ⟨s1 ++ s2, by rw [List.foldl_cons, hs2, hs1, List.append_assoc]⟩

theorem llenar_avion_append (states : List StateRecord) (t : Int) (db : DB) :
    ∃ s, (llenar_tabla_en_sqlite states t db).1.avion_fisico = db.avion_fisico ++ s := by
  unfold llenar_tabla_en_sqlite
  by_cases h : states.isEmpty
  · rw [if_pos h]
    exact ⟨[], by simp⟩
  · rw [if_neg h]
    exact foldl_procesar_avion_append t states db

theorem llenar_snapshots_append (states : List StateRecord) (t : Int) (db : DB) :
    ∃ s, (llenar_tabla_en_sqlite states t db).1.snapshots = db.snapshots ++ s := by
  unfold llenar_tabla_en_sqlite
  by_cases h : states.isEmpty
  · rw [if_pos h]
    exact ⟨[], by simp⟩
  · rw [if_neg h]
    exact foldl_procesar_snapshots_append t states db

theorem llenar_snapshots_map (states : List StateRecord) (t : Int) (db : DB) :
    ((llenar_tabla_en_sqlite states t db).1.snapshots).map snapDatos =
      db.snapshots.map snapDatos ++
        (states.filter esMexicano).map
          (fun r => (r.posicion_temporal, t, r.longitud, r.latitud, r.altitud)) := by
  unfold llenar_tabla_en_sqlite
  by_cases h : states.isEmpty
  · rw [if_pos h]
    rw [List.isEmpty_iff] at h
    subst h
    simp
  · rw [if_neg h]
    exact foldl_procesar_snapshots_map t states db

theorem llenar_snapshots_length (states : List StateRecord) (t : Int) (db : DB) :
    (llenar_tabla_en_sqlite states t db).1.snapshots.length =
      db.snapshots.length + (states.filter esMexicano).length := by
  have h := congrArg List.length (llenar_snapshots_map states t db)
  simpa using h

theorem ingestRuns_avion_append :
    ∀ (runs : List (List StateRecord × Int)) (db : DB),
      ∃ s, (ingestRuns db runs).avion_fisico = db.avion_fisico ++ s := by
  intro runs
  induction runs with
  | nil => intro db; exact ⟨[], by simp [ingestRuns]⟩
  | cons run rest ih =>
    intro db
    rcases llenar_avion_append run.1 run.2 db with ⟨s1, hs1⟩
    rcases ih (llenar_tabla_en_sqlite run.1 run.2 db).1 with ⟨s2, hs2⟩
    refine ⟨s1 ++ s2, ?_⟩
    show (ingestRuns (llenar_tabla_en_sqlite run.1 run.2 db).1 rest).avion_fisico = _
    rw [hs2, hs1, List.append_assoc]

theorem ingestRuns_snapshots_append :
    ∀ (runs : List (List StateRecord × Int)) (db : DB),
      ∃ s, (ingestRuns db runs).snapshots = db.snapshots ++ s := by
  intro runs
  induction runs with
  | nil => intro db; exact ⟨[], by simp [ingestRuns]⟩
  | cons run rest ih =>
    intro db
    rcases llenar_snapshots_append run.1 run.2 db with ⟨s1, hs1⟩
    rcases ih (llenar_tabla_en_sqlite run.1 run.2 db).1 with ⟨s2, hs2⟩
    refine ⟨s1 ++ s2, ?_⟩
    show (ingestRuns (llenar_tabla_en_sqlite run.1 run.2 db).1 rest).snapshots = _
    rw [hs2, hs1, List.append_assoc]

/-! ### Counting identity rows per `icao` -/

theorem cuentaLista_append (l1 l2 : List AvionFisicoRow) (i : String) :
    cuentaLista (l1 ++ l2) i = cuentaLista l1 i + cuentaLista l2 i := by
  simp [cuentaLista, List.filter_append]

theorem any_iff_cuenta_pos (l : List AvionFisicoRow) (i : String) :
    l.any (fun row => row.icao == i) = true ↔ 0 < cuentaLista l i := by
  simp [cuentaLista, List.any_eq_true, List.length_pos_iff_exists_mem, List.mem_filter]

theorem cuenta_pos_iff (l : List AvionFisicoRow) (i : String) :
    0 < cuentaLista l i ↔ ∃ row ∈ l, row.icao = i := by
  rw [← any_iff_cuenta_pos]
  simp [List.any_eq_true]

theorem cuentaLista_singleton (row : AvionFisicoRow) (i : String) :
    cuentaLista [row] i = if row.icao == i then 1 else 0 := by
  cases hb : (row.icao == i) <;> simp [cuentaLista, List.filter_cons, hb]

theorem cuentaIcao_procesarAvion_le_one (t : Int) (db : DB) (r : StateRecord)
    (i : String) (h : cuentaIcao db i ≤ 1) :
    cuentaIcao (procesarAvion t db r) i ≤ 1 := by
  unfold cuentaIcao at *
  rw [procesarAvion_avion_eq]
  by_cases hm : esMexicano r
  · rw [if_pos hm, insertOrIgnoreAvion_avion_eq]
    by_cases hany : db.avion_fisico.any (fun row => row.icao == r.icao)
    · rw [if_pos hany]; exact h
    · rw [if_neg hany, cuentaLista_append, cuentaLista_singleton]
      by_cases hri : r.icao = i
      · have hzero : cuentaLista db.avion_fisico r.icao = 0 := by
          rcases Nat.eq_zero_or_pos (cuentaLista db.avion_fisico r.icao) with h0 | hpos
          · exact h0
          · exact absurd ((any_iff_cuenta_pos _ _).mpr hpos) hany
        rw [hri] at hzero
        simp only [hzero]
        have : (r.icao == i) = true := beq_iff_eq.mpr hri
        rw [if_pos this]
      · have : (r.icao == i) = false := by
          rw [beq_eq_false_iff_ne]
          exact hri
        rw [this]
        simpa using h
  · rw [if_neg hm]; exact h

theorem cuentaIcao_le_procesarAvion (t : Int) (db : DB) (r : StateRecord) (i : String) :
    cuentaIcao db i ≤ cuentaIcao (procesarAvion t db r) i := by
  rcases procesarAvion_avion_append t db r with ⟨s, hs⟩
  unfold cuentaIcao
  rw [hs, cuentaLista_append]
  exact Nat.le_add_right _ _

theorem cuentaIcao_pos_procesarAvion (t : Int) (db : DB) (r : StateRecord)
    (hm : esMexicano r) :
    0 < cuentaIcao (procesarAvion t db r) r.icao := by
  unfold cuentaIcao
  rw [procesarAvion_avion_eq, if_pos hm, insertOrIgnoreAvion_avion_eq]
  by_cases hany : db.avion_fisico.any (fun row => row.icao == r.icao)
  · rw [if_pos hany]
    exact (any_iff_cuenta_pos _ _).mp hany
  · rw [if_neg hany, cuentaLista_append, cuentaLista_singleton]
    have : (r.icao == r.icao) = true := beq_iff_eq.mpr rfl
    rw [if_pos this]
    exact Nat.lt_of_lt_of_le Nat.zero_lt_one (Nat.le_add_left _ _)

theorem cuenta_le_one_foldl (t : Int) (i : String) :
    ∀ (states : List StateRecord) (db : DB), cuentaIcao db i ≤ 1 →
      cuentaIcao (states.foldl (procesarAvion t) db) i ≤ 1 := by
  intro states
  induction states with
  | nil => intro db h; exact h
  | cons r rest ih =>
    intro db h
    exact ih (procesarAvion t db r) (cuentaIcao_procesarAvion_le_one t db r i h)

theorem cuenta_le_foldl (t : Int) (i : String) (states : List StateRecord) (db : DB) :
    cuentaIcao db i ≤ cuentaIcao (states.foldl (procesarAvion t) db) i := by
  rcases foldl_procesar_avion_append t states db with ⟨s, hs⟩
  unfold cuentaIcao
  rw [hs, cuentaLista_append]
  exact Nat.le_add_right _ _

theorem cuenta_pos_foldl (t : Int) :
    ∀ (states : List StateRecord) (db : DB) (r : StateRecord), r ∈ states →
      esMexicano r → 0 < cuentaIcao (states.foldl (procesarAvion t) db) r.icao := by
  intro states
  induction states with
  | nil => intro db r hr; exact absurd hr (List.not_mem_nil r)
  | cons a rest ih =>
    intro db r hr hm
    rw [List.foldl_cons]
    rcases List.mem_cons.mp hr with h | h
    · subst h
      exact Nat.lt_of_lt_of_le (cuentaIcao_pos_procesarAvion t db r hm)
        (cuenta_le_foldl t r.icao rest (procesarAvion t db r))
    · exact ih (procesarAvion t db a) r h hm

theorem cuenta_le_one_llenar (states : List StateRecord) (t : Int) (db : DB)
    (i : String) (h : cuentaIcao db i ≤ 1) :
    cuentaIcao (llenar_tabla_en_sqlite states t db).1 i ≤ 1 := by
  unfold llenar_tabla_en_sqlite
  by_cases he : states.isEmpty
  · rw [if_pos he]; exact h
  · rw [if_neg he]; exact cuenta_le_one_foldl t i states db h

theorem cuenta_le_llenar (states : List StateRecord) (t : Int) (db : DB) (i : String) :
    cuentaIcao db i ≤ cuentaIcao (llenar_tabla_en_sqlite states t db).1 i := by
  rcases llenar_avion_append states t db with ⟨s, hs⟩
  unfold cuentaIcao
  rw [hs, cuentaLista_append]
  exact Nat.le_add_right _ _

theorem cuenta_pos_llenar (states : List StateRecord) (t : Int) (db : DB)
    (r : StateRecord) (hr : r ∈ states) (hm : esMexicano r) :
    0 < cuentaIcao (llenar_tabla_en_sqlite states t db).1 r.icao := by
  unfold llenar_tabla_en_sqlite
  have hne : states.isEmpty = false := by
    cases states with
    | nil => exact absurd hr (List.not_mem_nil r)
    | cons a rest => rfl
  rw [if_neg (by rw [hne]; exact Bool.false_ne_true)]
  exact cuenta_pos_foldl t states db r hr hm

theorem cuenta_le_one_ingestRuns (i : String) :
    ∀ (runs : List (List StateRecord × Int)) (db : DB), cuentaIcao db i ≤ 1 →
      cuentaIcao (ingestRuns db runs) i ≤ 1 := by
  intro runs
  induction runs with
  | nil => intro db h; exact h
  | cons run rest ih =>
    intro db h
    exact ih (llenar_tabla_en_sqlite run.1 run.2 db).1
      (cuenta_le_one_llenar run.1 run.2 db i h)

theorem cuenta_le_ingestRuns (i : String) (runs : List (List StateRecord × Int)) (db : DB) :
    cuentaIcao db i ≤ cuentaIcao (ingestRuns db runs) i := by
  rcases ingestRuns_avion_append runs db with ⟨s, hs⟩
  unfold cuentaIcao
  rw [hs, cuentaLista_append]
  exact Nat.le_add_right _ _

theorem cuenta_pos_ingestRuns :
    ∀ (runs : List (List StateRecord × Int)) (db : DB)
      (run : List StateRecord × Int) (r : StateRecord),
      run ∈ runs → r ∈ run.1 → esMexicano r →
      0 < cuentaIcao (ingestRuns db runs) r.icao := by
  intro runs
  induction runs with
  | nil => intro db run r hrun; exact absurd hrun (List.not_mem_nil run)
  | cons run0 rest ih =>
    intro db run r hrun hr hm
    rcases List.mem_cons.mp hrun with h | h
    · subst h
      exact Nat.lt_of_lt_of_le (cuenta_pos_llenar run.1 run.2 db r hr hm)
        (cuenta_le_ingestRuns r.icao rest (llenar_tabla_en_sqlite run.1 run.2 db).1)
    · exact ih (llenar_tabla_en_sqlite run0.1 run0.2 db).1 run r h hr hm

/-! ### Membership and frame lemmas for the identity table -/

theorem avion_mem_procesar (t : Int) (db : DB) (r : StateRecord) (row : AvionFisicoRow)
    (h : row ∈ (procesarAvion t db r).avion_fisico) :
    row ∈ db.avion_fisico ∨
      (esMexicano r = true ∧ row.icao = r.icao ∧ row.call_sign = r.call_sign ∧
        row.pais_origen = r.pais_origen) := by
  rw [procesarAvion_avion_eq] at h
  by_cases hm : esMexicano r
  · rw [if_pos hm, insertOrIgnoreAvion_avion_eq] at h
    by_cases hany : db.avion_fisico.any (fun row => row.icao == r.icao)
    · rw [if_pos hany] at h
      exact Or.inl h
    · rw [if_neg hany] at h
      rcases List.mem_append.mp h with h1 | h1
      · exact Or.inl h1
      · have : row = ⟨db.next_avion_id, r.icao, r.call_sign, r.pais_origen⟩ :=
          List.eq_of_mem_singleton h1
        subst this
        exact Or.inr ⟨hm, rfl, rfl, rfl⟩
  · rw [if_neg hm] at h
    exact Or.inl h

theorem avion_mem_foldl (t : Int) :
    ∀ (states : List StateRecord) (db : DB) (row : AvionFisicoRow),
      row ∈ (states.foldl (procesarAvion t) db).avion_fisico →
      row ∈ db.avion_fisico ∨
        ∃ r ∈ states, esMexicano r = true ∧ row.icao = r.icao ∧
          row.call_sign = r.call_sign ∧ row.pais_origen = r.pais_origen := by
  intro states
  induction states with
  | nil => intro db row h; exact Or.inl h
  | cons a rest ih =>
    intro db row h
    rw [List.foldl_cons] at h
    rcases ih (procesarAvion t db a) row h with h1 | h1
    · rcases avion_mem_procesar t db a row h1 with h2 | h2
      · exact Or.inl h2
      · exact Or.inr ⟨a, List.mem_cons_self a rest, h2⟩
    · rcases h1 with ⟨r, hr, hrest⟩
      exact Or.inr ⟨r, List.mem_cons_of_mem a hr, hrest⟩

theorem avion_mem_llenar (states : List StateRecord) (t : Int) (db : DB)
    (row : AvionFisicoRow)
    (h : row ∈ (llenar_tabla_en_sqlite states t db).1.avion_fisico) :
    row ∈ db.avion_fisico ∨
      ∃ r ∈ states, esMexicano r = true ∧ row.icao = r.icao ∧
        row.call_sign = r.call_sign ∧ row.pais_origen = r.pais_origen := by
  unfold llenar_tabla_en_sqlite at h
  by_cases he : states.isEmpty
  · rw [if_pos he] at h
    exact Or.inl h
  · rw [if_neg he] at h
    exact avion_mem_foldl t states db row h

theorem filter_icao_procesar (t : Int) (db : DB) (r : StateRecord) (i : String)
    (h : ∃ row ∈ db.avion_fisico, row.icao = i) :
    (procesarAvion t db r).avion_fisico.filter (fun row => row.icao == i) =
      db.avion_fisico.filter (fun row => row.icao == i) := by
  rw [procesarAvion_avion_eq]
  by_cases hm : esMexicano r
  · rw [if_pos hm, insertOrIgnoreAvion_avion_eq]
    by_cases hany : db.avion_fisico.any (fun row => row.icao == r.icao)
    · rw [if_pos hany]
    · rw [if_neg hany, List.filter_append]
      have hne : r.icao ≠ i := by
        intro hri
        apply hany
        rw [any_iff_cuenta_pos, hri]
        exact (cuenta_pos_iff db.avion_fisico i).mpr h
      have : ((⟨db.next_avion_id, r.icao, r.call_sign, r.pais_origen⟩ :
          AvionFisicoRow).icao == i) = false := beq_eq_false_iff_ne.mpr hne
      rw [List.filter_cons, this]
      simp
  · rw [if_neg hm]

theorem exists_icao_procesar (t : Int) (db : DB) (r : StateRecord) (i : String)
    (h : ∃ row ∈ db.avion_fisico, row.icao = i) :
    ∃ row ∈ (procesarAvion t db r).avion_fisico, row.icao = i := by
  rcases procesarAvion_avion_append t db r with ⟨s, hs⟩
  rcases h with ⟨row, hmem, hi⟩
  exact ⟨row, by rw [hs]; exact List.mem_append_left s hmem, hi⟩

theorem filter_icao_foldl (t : Int) (i : String) :
    ∀ (states : List StateRecord) (db : DB),
      (∃ row ∈ db.avion_fisico, row.icao = i) →
      (states.foldl (procesarAvion t) db).avion_fisico.filter (fun row => row.icao == i) =
        db.avion_fisico.filter (fun row => row.icao == i) := by
  intro states
  induction states with
  | nil => intro db _; rfl
  | cons a rest ih =>
    intro db h
    rw [List.foldl_cons, ih (procesarAvion t db a) (exists_icao_procesar t db a i h),
      filter_icao_procesar t db a i h]

/-! ### No-op lemmas for runs that retain nothing -/

theorem procesarAvion_no_mexicano (t : Int) (db : DB) (r : StateRecord)
    (hm : esMexicano r = false) : procesarAvion t db r = db := by
  unfold procesarAvion
  rw [if_neg (by rw [hm]; exact Bool.false_ne_true)]

theorem foldl_procesar_no_mexicano (t : Int) :
    ∀ (states : List StateRecord) (db : DB),
      (∀ r ∈ states, esMexicano r = false) →
      states.foldl (procesarAvion t) db = db := by
  intro states
  induction states with
  | nil => intro db _; rfl
  | cons a rest ih =>
    intro db h
    rw [List.foldl_cons, procesarAvion_no_mexicano t db a (h a (List.mem_cons_self a rest))]
    exact ih db (fun r hr => h r (List.mem_cons_of_mem a hr))

theorem ingestRuns_snapshots_length (M : Nat) :
    ∀ (runs : List (List StateRecord × Int)) (db : DB),
      (∀ run ∈ runs, (run.1.filter esMexicano).length = M) →
      (ingestRuns db runs).snapshots.length = db.snapshots.length + runs.length * M := by
  intro runs
  induction runs with
  | nil => intro db _; simp [ingestRuns]
  | cons run rest ih =>
    intro db h
    show (ingestRuns (llenar_tabla_en_sqlite run.1 run.2 db).1 rest).snapshots.length = _
    rw [ih (llenar_tabla_en_sqlite run.1 run.2 db).1
        (fun x hx => h x (List.mem_cons_of_mem run hx)),
      llenar_snapshots_length, h run (List.mem_cons_self run rest),
      List.length_cons, Nat.succ_mul]
    omega

/-! ### The ingestion `main`

`main` runs, in this order: credential loading, the OAuth2 token exchange,
the state-vector fetch, the command-line-argument check, the database
connection, table creation and `llenar_tabla_en_sqlite`.  The outcomes of
the three external collaborators and the argument count are inputs of the
model; the returned list records which steps the run attempted, in order. -/

/-- Result of `llamar_al_endpoint`: a parsed JSON object that either lacks
a usable `"states"` key (this also covers a falsy/empty response object)
or carries one. -/
inductive RespuestaAPI where
  | sinStates : RespuestaAPI
  | conStates : List StateRecord → RespuestaAPI
deriving DecidableEq

/-- The steps an ingestion or compute run can attempt, in source order. -/
inductive Paso where
  | cargarCredenciales : Paso
  | pedirToken : Paso
  | llamarEndpoint : Paso
  | avisoUso : Paso
  | conectarBD : Paso
deriving DecidableEq

/-- Outcomes of the external collaborators of one ingestion invocation,
plus `len(sys.argv)`. `none` means the corresponding call failed
(missing credentials file, token exchange failure, fetch timeout). -/
structure EntornoIngesta where
  credenciales : Option (String × String)
  token : Option String
  respuesta : Option RespuestaAPI
  argc : Nat

/-- The ingestion `main`: each guard `exit()`s the run.  Note that the
command-line-argument check happens only after credential loading, the
token exchange and the fetch, exactly as in the source. -/
def ingest_main (env : EntornoIngesta) (db : DB) (t : Int) : List Paso × DB :=
  match env.credenciales with
  | none => ([Paso.cargarCredenciales], db)
  | some _ =>
    match env.token with
    | none => ([Paso.cargarCredenciales, Paso.pedirToken], db)
    | some _ =>
      match env.respuesta with
      | none => ([Paso.cargarCredenciales, Paso.pedirToken, Paso.llamarEndpoint], db)
      | some RespuestaAPI.sinStates =>
          ([Paso.cargarCredenciales, Paso.pedirToken, Paso.llamarEndpoint], db)
      | some (RespuestaAPI.conStates states) =>
          if env.argc = 2 then
            ([Paso.cargarCredenciales, Paso.pedirToken, Paso.llamarEndpoint,
              Paso.conectarBD],
             (llenar_tabla_en_sqlite states t db).1)
          else
            ([Paso.cargarCredenciales, Paso.pedirToken, Paso.llamarEndpoint,
              Paso.avisoUso], db)

/-! ### Concrete example data used by the witnesses -/

/-- A Mexican state vector. -/
def recMex1 : StateRecord :=
  ⟨"abc123", "AMX001", "Mexico", some 5, some (-99), some 19, some 3000⟩

/-- A second sighting of the same aircraft with a different call sign. -/
def recMex2 : StateRecord :=
  ⟨"abc123", "AMX002", "Mexico", some 6, some (-98), some 20, some 3100⟩

/-- A non-Mexican state vector, dropped by the nationality filter. -/
def recAleman : StateRecord :=
  ⟨"def456", "DLH400", "Germany", some 7, some 13, some 52, some 10000⟩

/-- A database that already holds one identity row for `icao` `"abc123"`
with the first-seen call sign. -/
def dbConAvion : DB :=
  ⟨[⟨1, "abc123", "AMX001", "Mexico"⟩], [], 2, 1⟩

/-! ### Claims about the ingestion stage -/

/-- Claim C1: for any sequence of ingestion runs whose retained records
share an `icao`, after all runs there is exactly one `Avion_fisico` row
with that `icao`; the identity table only ever grows by appending, so the
surrogate `id` assigned on first sighting is never changed by later runs,
and re-ingestion of the same `icao` creates no duplicate identity row. -/
theorem C1_identidad_unica (runs : List (List StateRecord × Int)) (i : String)
    (hall : ∀ run ∈ runs, ∀ r ∈ run.1, esMexicano r = true → r.icao = i)
    (hsome : ∃ run ∈ runs, ∃ r ∈ run.1, esMexicano r = true) :
    cuentaIcao (ingestRuns crear_tabla_principal runs) i = 1 ∧
    ∀ more : List (List StateRecord × Int),
      (∃ s, (ingestRuns (ingestRuns crear_tabla_principal runs) more).avion_fisico =
          (ingestRuns crear_tabla_principal runs).avion_fisico ++ s) ∧
      cuentaIcao (ingestRuns (ingestRuns crear_tabla_principal runs) more) i = 1 := by
  have h0 : cuentaIcao crear_tabla_principal i ≤ 1 := by
    simp [cuentaIcao, crear_tabla_principal, cuentaLista]
  have h1 : cuentaIcao (ingestRuns crear_tabla_principal runs) i ≤ 1 :=
    cuenta_le_one_ingestRuns i runs crear_tabla_principal h0
  have h2 : 0 < cuentaIcao (ingestRuns crear_tabla_principal runs) i := by
    rcases hsome with ⟨run, hrun, r, hr, hm⟩
    have hpos := cuenta_pos_ingestRuns runs crear_tabla_principal run r hrun hr hm
    rwa [hall run hrun r hr hm] at hpos
  refine ⟨Nat.le_antisymm h1 h2, ?_⟩
  intro more
  refine ⟨ingestRuns_avion_append more _, ?_⟩
  have h3 : cuentaIcao (ingestRuns (ingestRuns crear_tabla_principal runs) more) i ≤ 1 :=
    cuenta_le_one_ingestRuns i more _ h1
  have h4 : 0 < cuentaIcao (ingestRuns (ingestRuns crear_tabla_principal runs) more) i :=
    Nat.lt_of_lt_of_le h2 (cuenta_le_ingestRuns i more _)
  exact Nat.le_antisymm h3 h4

/-- Witness for C1 at two concrete runs re-ingesting the same `icao`. -/
theorem C1_identidad_unica_witness :
    (∀ run ∈ ([([recMex1], (0:Int)), ([recMex2], 1)] : List (List StateRecord × Int)),
      ∀ r ∈ run.1, esMexicano r = true → r.icao = "abc123") ∧
    (∃ run ∈ ([([recMex1], (0:Int)), ([recMex2], 1)] : List (List StateRecord × Int)),
      ∃ r ∈ run.1, esMexicano r = true) ∧
    (cuentaIcao (ingestRuns crear_tabla_principal [([recMex1], 0), ([recMex2], 1)])
        "abc123" = 1 ∧
      ∀ more : List (List StateRecord × Int),
        (∃ s, (ingestRuns (ingestRuns crear_tabla_principal
              [([recMex1], 0), ([recMex2], 1)]) more).avion_fisico =
            (ingestRuns crear_tabla_principal
              [([recMex1], 0), ([recMex2], 1)]).avion_fisico ++ s) ∧
        cuentaIcao (ingestRuns (ingestRuns crear_tabla_principal
            [([recMex1], 0), ([recMex2], 1)]) more) "abc123" = 1) :=
  ⟨by decide, by decide, C1_identidad_unica _ _ (by decide) (by decide)⟩

/-- Claim C2: a fetched record contributes a persisted snapshot iff its
country field equals `"Mexico"` (exact string comparison); retained records
are processed in input order with their consumed fields stored verbatim:
positions 3,5,6,7 in the new snapshot rows (with the shared capture time),
and positions 0,1,2 in any newly created identity row. -/
theorem C2_filtro_correcto (states : List StateRecord) (t : Int) (db : DB) :
    ((llenar_tabla_en_sqlite states t db).1.snapshots).map snapDatos =
        db.snapshots.map snapDatos ++
          (states.filter esMexicano).map
            (fun r => (r.posicion_temporal, t, r.longitud, r.latitud, r.altitud)) ∧
    (∀ r ∈ states, esMexicano r = true →
       ∃ row ∈ (llenar_tabla_en_sqlite states t db).1.avion_fisico, row.icao = r.icao) ∧
    (∀ row ∈ (llenar_tabla_en_sqlite states t db).1.avion_fisico,
       row ∈ db.avion_fisico ∨
         ∃ r ∈ states, esMexicano r = true ∧ row.icao = r.icao ∧
           row.call_sign = r.call_sign ∧ row.pais_origen = r.pais_origen) := by
  refine ⟨llenar_snapshots_map states t db, ?_, ?_⟩
  · intro r hr hm
    have hpos := cuenta_pos_llenar states t db r hr hm
    exact (cuenta_pos_iff _ _).mp hpos
  · intro row hrow
    exact avion_mem_llenar states t db row hrow

/-- Claim C6: N runs each retaining M records insert exactly N×M snapshot
rows in total, and snapshots already present are never deduplicated,
updated or deleted by later runs (the snapshot table only grows by
appending). -/
theorem C6_acumulacion (runs : List (List StateRecord × Int)) (M : Nat)
    (h : ∀ run ∈ runs, (run.1.filter esMexicano).length = M) :
    (ingestRuns crear_tabla_principal runs).snapshots.length = runs.length * M ∧
    ∀ (db : DB) (more : List (List StateRecord × Int)),
      ∃ s, (ingestRuns db more).snapshots = db.snapshots ++ s := by
  constructor
  · have hlen := ingestRuns_snapshots_length M runs crear_tabla_principal h
    simpa [crear_tabla_principal] using hlen
  · intro db more
    exact ingestRuns_snapshots_append more db

/-- Witness for C6: two runs with one retained record each give two rows. -/
theorem C6_acumulacion_witness :
    (∀ run ∈ ([([recMex1], (0:Int)), ([recMex2, recAleman], 1)] :
        List (List StateRecord × Int)), (run.1.filter esMexicano).length = 1) ∧
    ((ingestRuns crear_tabla_principal
        [([recMex1], 0), ([recMex2, recAleman], 1)]).snapshots.length =
      ([([recMex1], (0:Int)), ([recMex2, recAleman], 1)] :
        List (List StateRecord × Int)).length * 1 ∧
      ∀ (db : DB) (more : List (List StateRecord × Int)),
        ∃ s, (ingestRuns db more).snapshots = db.snapshots ++ s) :=
  ⟨by decide, C6_acumulacion _ 1 (by decide)⟩

/-- Claim C7, counterexample to the reporting clause: a run whose filtered
list is empty (one German record) writes nothing, but its printed message
is the generic success message — the very message printed by a run that
does persist rows — not a report that there was nothing to persist.  (When
the raw list is empty the message even announces a JSON format error.) -/
theorem C7_contraejemplo :
    (llenar_tabla_en_sqlite [recAleman] 7 crear_tabla_principal).1 =
        crear_tabla_principal ∧
    (llenar_tabla_en_sqlite [recAleman] 7 crear_tabla_principal).2 = msgExito ∧
    (llenar_tabla_en_sqlite [recMex1] 7 crear_tabla_principal).2 = msgExito ∧
    (llenar_tabla_en_sqlite [recMex1] 7 crear_tabla_principal).1 ≠
        crear_tabla_principal ∧
    (llenar_tabla_en_sqlite [] 7 crear_tabla_principal).2 = msgFormatoJSON := by
  decide

/-- Claim C7 as amended: if the filtered list is empty the run performs no
database writes and ends cleanly, but the message it prints is the JSON
format-error message when the raw `"states"` list is empty and the generic
success message otherwise. -/
theorem C7_sin_retenidos (states : List StateRecord) (t : Int) (db : DB)
    (h : states.filter esMexicano = []) :
    (llenar_tabla_en_sqlite states t db).1 = db ∧
    (llenar_tabla_en_sqlite states t db).2 =
      (if states.isEmpty then msgFormatoJSON else msgExito) := by
  unfold llenar_tabla_en_sqlite
  by_cases he : states.isEmpty
  · rw [if_pos he, if_pos he]
    exact ⟨rfl, rfl⟩
  · rw [if_neg he, if_neg he]
    refine ⟨?_, rfl⟩
    apply foldl_procesar_no_mexicano
    intro r hr
    have hnot := List.filter_eq_nil_iff.mp h r hr
    exact Bool.eq_false_iff.mpr fun hc => hnot (by rw [← hc])

/-- Witness for the amended C7 at a concrete all-filtered-out run. -/
theorem C7_sin_retenidos_witness :
    ([recAleman].filter esMexicano = []) ∧
    ((llenar_tabla_en_sqlite [recAleman] 7 dbConAvion).1 = dbConAvion ∧
      (llenar_tabla_en_sqlite [recAleman] 7 dbConAvion).2 =
        (if ([recAleman] : List StateRecord).isEmpty then msgFormatoJSON
          else msgExito)) :=
  ⟨by decide, C7_sin_retenidos _ _ _ (by decide)⟩

/-- Claim C8: a fetch response that is `None` or lacks a `"states"` key
makes the ingestion run end before connecting to the database: the
database value is untouched and no unhandled error is raised (the model
is a total function and the guard in `main` exits before persistence). -/
theorem C8_respuesta_malformada (env : EntornoIngesta) (db : DB) (t : Int)
    (h : env.respuesta = none ∨ env.respuesta = some RespuestaAPI.sinStates) :
    (ingest_main env db t).2 = db ∧ Paso.conectarBD ∉ (ingest_main env db t).1 := by
  rcases env with ⟨cred, tok, resp, argc⟩
  rcases h with h | h <;> cases h <;>
    cases cred <;> cases tok <;> simp [ingest_main]

/-- Witness for C8 at a concrete run whose fetch lacks `"states"`. -/
theorem C8_respuesta_malformada_witness :
    ((⟨some ("id", "secreto"), some "token123", some RespuestaAPI.sinStates, 2⟩ :
        EntornoIngesta).respuesta = none ∨
      (⟨some ("id", "secreto"), some "token123", some RespuestaAPI.sinStates, 2⟩ :
        EntornoIngesta).respuesta = some RespuestaAPI.sinStates) ∧
    ((ingest_main ⟨some ("id", "secreto"), some "token123",
        some RespuestaAPI.sinStates, 2⟩ crear_tabla_principal 0).2 =
          crear_tabla_principal ∧
      Paso.conectarBD ∉ (ingest_main ⟨some ("id", "secreto"), some "token123",
        some RespuestaAPI.sinStates, 2⟩ crear_tabla_principal 0).1) :=
  ⟨Or.inr rfl, C8_respuesta_malformada _ _ _ (Or.inr rfl)⟩

/-- Claim C10: when a run encounters an `icao` that already has an
identity row, the rows carrying that `icao` after the run are exactly the
rows carrying it before — the existing row keeps its `id`, `call_sign`
and `pais_origen` from the first sighting (even if the new record carries
a different call sign), and no second row for that `icao` appears. -/
theorem C10_identidad_intacta (states : List StateRecord) (t : Int) (db : DB)
    (i : String) (h : ∃ row ∈ db.avion_fisico, row.icao = i) :
    (llenar_tabla_en_sqlite states t db).1.avion_fisico.filter
        (fun row => row.icao == i) =
      db.avion_fisico.filter (fun row => row.icao == i) := by
  unfold llenar_tabla_en_sqlite
  by_cases he : states.isEmpty
  · rw [if_pos he]
  · rw [if_neg he]
    exact filter_icao_foldl t i states db h

/-- Witness for C10: re-ingesting `"abc123"` with a different call sign
leaves the stored row (first-seen call sign `"AMX001"`) untouched. -/
theorem C10_identidad_intacta_witness :
    (∃ row ∈ dbConAvion.avion_fisico, row.icao = "abc123") ∧
    (llenar_tabla_en_sqlite [recMex2] 9 dbConAvion).1.avion_fisico.filter
        (fun row => row.icao == "abc123") =
      dbConAvion.avion_fisico.filter (fun row => row.icao == "abc123") :=
  ⟨by decide, C10_identidad_intacta _ _ _ _ (by decide)⟩

/-! ## The compute stage (`Airplanes_compute_flight_snapshots.py`)

`calcular_distancias_trayectorias` fetches all rows of
`Trayectorias_validas`, then for each fetched row converts its four
coordinates from degrees to radians, computes the spherical-law-of-cosines
great-circle distance with R = 6371 km, rounds to 2 decimal places and
runs `UPDATE … SET distancia_inicio_a_fin_km = ? WHERE Avion_fisico_id = ?`.
Coordinates read from SQLite are idealised as rationals and the
trigonometry is carried out over the reals. -/

/-- A row of the `Trayectorias_validas` table as consumed and updated by
the calculator (columns `Avion_fisico_id, lat_inicio, lon_inicio, lat_fin,
lon_fin, distancia_inicio_a_fin_km`). -/
structure TrayectoriaRow where
  avion_fisico_id : Nat
  lat_inicio : ℚ
  lon_inicio : ℚ
  lat_fin : ℚ
  lon_fin : ℚ
  distancia_inicio_a_fin_km : Option ℝ

/-- `math.radians`: degrees to radians. -/
noncomputable def radianes (x : ℚ) : ℝ :=
  (x : ℝ) * Real.pi / 180

/-- `round(v, 2)`: round to 2 decimal places (idealised over ℝ). -/
noncomputable def round2 (x : ℝ) : ℝ :=
  ((round (100 * x) : ℤ) : ℝ) / 100

/-- The distance expression of line 73 of the compute script:
`round(6371 * acos(sin(lat_inicio)*sin(lat_fin) +
cos(lat_inicio)*cos(lat_fin)*cos(lon_inicio - lon_fin)), 2)` with all
four coordinates first converted to radians.  Note the source passes the
arccos argument unclamped. -/
noncomputable def distancia_km (lat1 lon1 lat2 lon2 : ℚ) : ℝ :=
  round2 (6371 * Real.arccos (Real.sin (radianes lat1) * Real.sin (radianes lat2) +
    Real.cos (radianes lat1) * Real.cos (radianes lat2) *
      Real.cos (radianes lon1 - radianes lon2)))

/-- The distance of one fetched row. -/
noncomputable def distanciaFila (r : TrayectoriaRow) : ℝ :=
  distancia_km r.lat_inicio r.lon_inicio r.lat_fin r.lon_fin

/-- The `UPDATE … WHERE Avion_fisico_id = ?` statement: every row whose
id matches receives the new distance. -/
def actualizarDistancia (tabla : List TrayectoriaRow) (aid : Nat) (d : ℝ) :
    List TrayectoriaRow :=
  tabla.map (fun r =>
    if r.avion_fisico_id = aid then { r with distancia_inicio_a_fin_km := some d }
    else r)

/-- Message printed when the trajectory table is empty. -/
def msgVacia : String :=
  "La database esta vacía, lo que implica que no hubo trayectorias válidas para procesar."

/-- Message printed after the distance pass commits. -/
def msgComputo : String :=
  "Has agregado la columna con nuevos datos exitosamente"

/-- `calcular_distancias_trayectorias`: early return when the fetched list
is empty; otherwise iterate over the fetched rows, updating the evolving
table, and report success.  Returns (table after commit, printed message). -/
noncomputable def calcular_distancias_trayectorias (tabla : List TrayectoriaRow) :
    List TrayectoriaRow × String :=
  if tabla.isEmpty then (tabla, msgVacia)
  else
    (tabla.foldl
      (fun acc r => actualizarDistancia acc r.avion_fisico_id (distanciaFila r)) tabla,
     msgComputo)

/-- The compute `main`: the argument-count check comes first; with a
correct count it connects and runs the calculator. -/
noncomputable def compute_main (argc : Nat) (tabla : List TrayectoriaRow) :
    List Paso × List TrayectoriaRow :=
  if argc = 2 then ([Paso.conectarBD], (calcular_distancias_trayectorias tabla).1)
  else ([Paso.avisoUso], tabla)

/-- The last `UPDATE` of the pass that matches a given id, if any. -/
def ultimaActualizacion (l : List TrayectoriaRow) (aid : Nat) : Option TrayectoriaRow :=
  (l.filter (fun x => x.avion_fisico_id == aid)).getLast?

/-- Net effect of the whole update loop on one table row. -/
noncomputable def aplicarCorrida (l : List TrayectoriaRow) (r : TrayectoriaRow) :
    TrayectoriaRow :=
  match ultimaActualizacion l r.avion_fisico_id with
  | some x => { r with distancia_inicio_a_fin_km := some (distanciaFila x) }
  | none => r

theorem aplicarCorrida_nil (r : TrayectoriaRow) : aplicarCorrida [] r = r :=
  rfl

theorem aplicarCorrida_cons (x : TrayectoriaRow) (l : List TrayectoriaRow)
    (r : TrayectoriaRow) :
    aplicarCorrida l
      (if r.avion_fisico_id = x.avion_fisico_id then
        { r with distancia_inicio_a_fin_km := some (distanciaFila x) } else r) =
      aplicarCorrida (x :: l) r := by
  by_cases h : r.avion_fisico_id = x.avion_fisico_id
  · rw [if_pos h]
    unfold aplicarCorrida ultimaActualizacion
    have hx : (x.avion_fisico_id == r.avion_fisico_id) = true := beq_iff_eq.mpr h.symm
    rw [List.filter_cons]
    show (match ((l.filter (fun y => y.avion_fisico_id == r.avion_fisico_id)).getLast?) with
      | some y => ({ { r with distancia_inicio_a_fin_km := some (distanciaFila x) } with
          distancia_inicio_a_fin_km := some (distanciaFila y) } : TrayectoriaRow)
      | none => { r with distancia_inicio_a_fin_km := some (distanciaFila x) }) = _
    rw [hx]
    cases hm : l.filter (fun y => y.avion_fisico_id == r.avion_fisico_id) with
    | nil => rfl
    | cons y ys =>
      rw [if_pos rfl, List.getLast?_cons_cons]
      cases hg : (y :: ys).getLast? with
      | none => exact absurd (List.getLast?_eq_none_iff.mp hg) (List.cons_ne_nil y ys)
      | some z => rfl
  · rw [if_neg h]
    unfold aplicarCorrida ultimaActualizacion
    have hx : (x.avion_fisico_id == r.avion_fisico_id) = false :=
      beq_eq_false_iff_ne.mpr (fun hc => h hc.symm)
    rw [List.filter_cons, hx]
    rfl

theorem foldl_actualizar :
    ∀ (l s : List TrayectoriaRow),
      l.foldl (fun acc r => actualizarDistancia acc r.avion_fisico_id (distanciaFila r)) s =
        s.map (aplicarCorrida l) := by
  intro l
  induction l with
  | nil =>
    intro s
    rw [List.foldl_nil]
    have : ∀ r ∈ s, r = aplicarCorrida [] r := fun r _ => (aplicarCorrida_nil r).symm
    calc s = s.map id := (List.map_id s).symm
      _ = s.map (aplicarCorrida []) := List.map_congr_left (fun r _ => (aplicarCorrida_nil r).symm)
  | cons x l ih =>
    intro s
    rw [List.foldl_cons, ih, actualizarDistancia, List.map_map]
    exact List.map_congr_left (fun r _ => aplicarCorrida_cons x l r)

theorem filter_id_singleton :
    ∀ (tabla : List TrayectoriaRow),
      tabla.Pairwise (fun a b => a.avion_fisico_id ≠ b.avion_fisico_id) →
      ∀ r ∈ tabla,
        tabla.filter (fun x => x.avion_fisico_id == r.avion_fisico_id) = [r] := by
  intro tabla
  induction tabla with
  | nil => intro _ r hr; exact absurd hr (List.not_mem_nil r)
  | cons a t ih =>
    intro hp r hr
    rcases List.pairwise_cons.mp hp with ⟨ha, ht⟩
    rcases List.mem_cons.mp hr with h | h
    · subst h
      rw [List.filter_cons, if_pos (beq_iff_eq.mpr rfl)]
      have : t.filter (fun x => x.avion_fisico_id == r.avion_fisico_id) = [] := by
        rw [List.filter_eq_nil_iff]
        intro b hb hbeq
        exact ha b hb (beq_iff_eq.mp hbeq).symm
      rw [this]
    · rw [List.filter_cons,
        if_neg (by
          intro hbeq
          exact ha r h (beq_iff_eq.mp hbeq))]
      exact ih ht r h

/-! ### Arithmetic lemmas about the rounded distance -/

theorem round2_nonneg (x : ℝ) (h : 0 ≤ x) : 0 ≤ round2 x := by
  unfold round2
  apply div_nonneg _ (by norm_num)
  have : (0 : ℤ) ≤ round (100 * x) := by
    rw [round_eq, Int.le_floor]
    push_cast
    linarith
  exact_mod_cast this

theorem round2_mono (x y : ℝ) (h : x ≤ y) : round2 x ≤ round2 y := by
  unfold round2
  have : round (100 * x) ≤ round (100 * y) := by
    rw [round_eq, round_eq]
    exact Int.floor_le_floor (by linarith)
  have hcast : ((round (100 * x) : ℤ) : ℝ) ≤ ((round (100 * y) : ℤ) : ℝ) :=
    Int.cast_le.mpr this
  linarith

/-- Example trajectory rows used by the witnesses. -/
def fila1 : TrayectoriaRow :=
  ⟨1, 19, -99, 20, -98, none⟩

/-- A degenerate antipodal trajectory row. -/
def fila2 : TrayectoriaRow :=
  ⟨2, 0, 0, 0, 180, none⟩

/-! ### Claims about the compute stage -/

/-- Claim C3 (supporting theorem for the code bug): in exact real
arithmetic the arccos argument at identical start/end coordinates is
exactly 1, so the computed distance is exactly 0.00.  The floating-point
domain error of the unclamped source (the bug) lives outside this exact
model; see the recorded failing input. -/
theorem C3_coordenadas_identicas (lat lon : ℚ) :
    distancia_km lat lon lat lon = 0 := by
  unfold distancia_km
  have harg : Real.sin (radianes lat) * Real.sin (radianes lat) +
      Real.cos (radianes lat) * Real.cos (radianes lat) *
        Real.cos (radianes lon - radianes lon) = 1 := by
    rw [sub_self, Real.cos_zero, mul_one]
    have h := Real.sin_sq_add_cos_sq (radianes lat)
    linear_combination h
  rw [harg, Real.arccos_one, mul_zero]
  simp [round2]

/-- Claim C4: the calculator updates every `Trayectorias_validas` row
(matched by its `aircraft_id`, unique per the table's key) to exactly the
rounded spherical-law-of-cosines distance of its own four coordinates,
converted from degrees to radians, with R = 6371 and 2-decimal rounding. -/
theorem C4_distancias_actualizadas (tabla : List TrayectoriaRow)
    (h : tabla.Pairwise (fun a b => a.avion_fisico_id ≠ b.avion_fisico_id)) :
    (calcular_distancias_trayectorias tabla).1 =
      tabla.map (fun r =>
        { r with distancia_inicio_a_fin_km := some (distancia_km r.lat_inicio r.lon_inicio r.lat_fin r.lon_fin) }) := by
  unfold calcular_distancias_trayectorias
  by_cases he : tabla.isEmpty
  · rw [if_pos he]
    rw [List.isEmpty_iff] at he
    subst he
    rfl
  · rw [if_neg he]
    show tabla.foldl _ tabla = _
    rw [foldl_actualizar]
    apply List.map_congr_left
    intro r hr
    unfold aplicarCorrida ultimaActualizacion
    rw [filter_id_singleton tabla h r hr]
    rfl

/-- Witness for C4 at a concrete two-row table with distinct ids. -/
theorem C4_distancias_actualizadas_witness :
    (([fila1, fila2] : List TrayectoriaRow).Pairwise
        (fun a b => a.avion_fisico_id ≠ b.avion_fisico_id)) ∧
    (calcular_distancias_trayectorias [fila1, fila2]).1 =
      ([fila1, fila2] : List TrayectoriaRow).map (fun r =>
        { r with distancia_inicio_a_fin_km := some (distancia_km r.lat_inicio r.lon_inicio r.lat_fin r.lon_fin) }) :=
  ⟨by decide, C4_distancias_actualizadas _ (by decide)⟩

/-- Claim C5, counterexample to the 20015 bound: for the antipodal pair
(0°,0°)–(0°,180°) the computed value is `round2 (6371·π)` = 20015.09,
which exceeds 20015 (half the Earth's circumference is 6371·π ≈ 20015.087
km, and the claimed bound truncates it). -/
theorem C5_contraejemplo_cota : 20015 < distancia_km 0 0 0 180 := by
  unfold distancia_km radianes
  have hr0 : ((0:ℚ):ℝ) * Real.pi / 180 = 0 := by norm_num
  have hr180 : ((180:ℚ):ℝ) * Real.pi / 180 = Real.pi := by
    push_cast
    field_simp
  rw [hr0, hr180, Real.sin_zero, Real.cos_zero]
  have harg : (0:ℝ) * 0 + 1 * 1 * Real.cos (0 - Real.pi) = -1 := by
    rw [zero_sub, Real.cos_neg, Real.cos_pi]
    ring
  rw [harg, Real.arccos_neg_one]
  unfold round2
  have hpi := Real.pi_gt_d6
  have hge : (2001508 : ℤ) ≤ round (100 * (6371 * Real.pi)) := by
    rw [round_eq, Int.le_floor]
    push_cast
    nlinarith [hpi]
  have hcast : ((2001508 : ℤ) : ℝ) ≤ ((round (100 * (6371 * Real.pi)) : ℤ) : ℝ) :=
    Int.cast_le.mpr hge
  push_cast at hcast
  linarith

/-- Claim C5 as amended: the computed distance is non-negative, at most
20015.09 (the rounded value of 6371·π), and symmetric under swapping the
start and end coordinates. -/
theorem C5_simetria_y_cotas (lat1 lon1 lat2 lon2 : ℚ) :
    0 ≤ distancia_km lat1 lon1 lat2 lon2 ∧
    distancia_km lat1 lon1 lat2 lon2 ≤ 20015.09 ∧
    distancia_km lat1 lon1 lat2 lon2 = distancia_km lat2 lon2 lat1 lon1 := by
  refine ⟨?_, ?_, ?_⟩
  · unfold distancia_km
    apply round2_nonneg
    have := Real.arccos_nonneg (Real.sin (radianes lat1) * Real.sin (radianes lat2) +
      Real.cos (radianes lat1) * Real.cos (radianes lat2) *
        Real.cos (radianes lon1 - radianes lon2))
    linarith
  · unfold distancia_km
    have harc := Real.arccos_le_pi (Real.sin (radianes lat1) * Real.sin (radianes lat2) +
      Real.cos (radianes lat1) * Real.cos (radianes lat2) *
        Real.cos (radianes lon1 - radianes lon2))
    have hmono : round2 (6371 * Real.arccos (Real.sin (radianes lat1) *
        Real.sin (radianes lat2) + Real.cos (radianes lat1) * Real.cos (radianes lat2) *
          Real.cos (radianes lon1 - radianes lon2))) ≤ round2 (6371 * Real.pi) :=
      round2_mono _ _ (by nlinarith [harc])
    have hcap : round2 (6371 * Real.pi) ≤ 20015.09 := by
      unfold round2
      have hle : round (100 * (6371 * Real.pi)) ≤ (2001509 : ℤ) := by
        rw [round_eq]
        have : (637100 : ℝ) * Real.pi + 1 / 2 < 2001510 := by
          nlinarith [Real.pi_lt_d6]
        have hfl : ⌊(100:ℝ) * (6371 * Real.pi) + 1 / 2⌋ < (2001510 : ℤ) := by
          rw [Int.floor_lt]
          push_cast
          nlinarith [Real.pi_lt_d6]
        omega
      have hcast : ((round (100 * (6371 * Real.pi)) : ℤ) : ℝ) ≤ ((2001509 : ℤ) : ℝ) :=
        Int.cast_le.mpr hle
      push_cast at hcast
      norm_num
      linarith
    linarith
  · have harg : Real.sin (radianes lat1) * Real.sin (radianes lat2) +
        Real.cos (radianes lat1) * Real.cos (radianes lat2) *
          Real.cos (radianes lon1 - radianes lon2)
        = Real.sin (radianes lat2) * Real.sin (radianes lat1) +
        Real.cos (radianes lat2) * Real.cos (radianes lat1) *
          Real.cos (radianes lon2 - radianes lon1) := by
      rw [show radianes lon2 - radianes lon1 = -(radianes lon1 - radianes lon2) by ring,
        Real.cos_neg]
      ring
    unfold distancia_km
    rw [harg]

/-- Claim C9, counterexample: with a wrong argument count (argc = 3) but
working credentials, token and fetch, the ingestion job still attempts
credential loading, the token exchange and the state fetch before its
usage-message exit — the argument check is not reached first, contradicting
"no partial work … no credential loading, no network call".  (It does exit
before any database access.) -/
theorem C9_contraejemplo :
    ingest_main ⟨some ("id", "secreto"), some "token123",
        some (RespuestaAPI.conStates [recMex1]), 3⟩ crear_tabla_principal 0 =
      ([Paso.cargarCredenciales, Paso.pedirToken, Paso.llamarEndpoint, Paso.avisoUso],
        crear_tabla_principal) := by
  decide

/-- Claim C9 as amended: with a wrong argument count each job exits with
the usage message and touches no database — the compute job before doing
any work at all, but the ingestion job only after attempting credential
loading, the token exchange and the state fetch (when those succeed). -/
theorem C9_aviso_uso (argc : Nat) (h : argc ≠ 2) :
    (∀ tabla, compute_main argc tabla = ([Paso.avisoUso], tabla)) ∧
    (∀ (env : EntornoIngesta) (db : DB) (t : Int), env.argc = argc →
      (ingest_main env db t).2 = db ∧ Paso.conectarBD ∉ (ingest_main env db t).1) ∧
    (∀ (env : EntornoIngesta) (db : DB) (t : Int), env.argc = argc →
      env.credenciales.isSome = true → env.token.isSome = true →
      (∃ l, env.respuesta = some (RespuestaAPI.conStates l)) →
      (ingest_main env db t).1 =
        [Paso.cargarCredenciales, Paso.pedirToken, Paso.llamarEndpoint,
          Paso.avisoUso]) := by
  refine ⟨?_, ?_, ?_⟩
  · intro tabla
    unfold compute_main
    rw [if_neg h]
  · intro env db t hargc
    rcases env with ⟨cred, tok, resp, argc'⟩
    simp only at hargc
    subst hargc
    cases cred with
    | none => exact ⟨rfl, by simp [ingest_main]⟩
    | some c =>
      cases tok with
      | none => exact ⟨rfl, by simp [ingest_main]⟩
      | some tk =>
        cases resp with
        | none => exact ⟨rfl, by simp [ingest_main]⟩
        | some resp2 =>
          cases resp2 with
          | sinStates => exact ⟨rfl, by simp [ingest_main]⟩
          | conStates l =>
            constructor
            · show (if argc' = 2 then _ else _ : List Paso × DB).2 = _
              rw [if_neg h]
            · show Paso.conectarBD ∉ (if argc' = 2 then _ else _ : List Paso × DB).1
              rw [if_neg h]
              simp
  · intro env db t hargc hcred htok hresp
    rcases env with ⟨cred, tok, resp, argc'⟩
    simp only at hargc hcred htok hresp
    subst hargc
    rcases Option.isSome_iff_exists.mp hcred with ⟨c, hc⟩
    rcases Option.isSome_iff_exists.mp htok with ⟨tk, htk⟩
    rcases hresp with ⟨l, hl⟩
    subst hc
    subst htk
    subst hl
    show (if argc' = 2 then _ else _ : List Paso × DB).1 = _
    rw [if_neg h]

/-- Witness for the amended C9 at argc = 3. -/
theorem C9_aviso_uso_witness :
    ((3:Nat) ≠ 2) ∧
    ((∀ tabla, compute_main 3 tabla = ([Paso.avisoUso], tabla)) ∧
      (∀ (env : EntornoIngesta) (db : DB) (t : Int), env.argc = 3 →
        (ingest_main env db t).2 = db ∧ Paso.conectarBD ∉ (ingest_main env db t).1) ∧
      (∀ (env : EntornoIngesta) (db : DB) (t : Int), env.argc = 3 →
        env.credenciales.isSome = true → env.token.isSome = true →
        (∃ l, env.respuesta = some (RespuestaAPI.conStates l)) →
        (ingest_main env db t).1 =
          [Paso.cargarCredenciales, Paso.pedirToken, Paso.llamarEndpoint,
            Paso.avisoUso])) :=
  ⟨by decide, C9_aviso_uso 3 (by decide)⟩

end Airplanes
